import Mathlib

/-!
# Verification of the nl80211-rs netlink / 802.11 parsing library

A shallow embedding of the library's parsing and transport core:

* `src/src/information_element.rs` — raw and typed information-element parsers
  (SSID, Country, CSA, ECSA, RSN, HT operation, VHT operation),
  cipher-suite / AKM decoding;
* `src/src/unpack.rs` — the `unpack_vec` helper;
* `src/netlink/src/core/mod.rs` — netlink header, attribute (TLV) codec,
  `Socket::parse_data` framing loop, socket sequence-number state;
* `src/netlink/src/core/helpers.rs` and `src/netlink/src/generic.rs` — the
  `extended_enum!` / `extended_enum_default!` id tables.

Byte buffers are modelled as `List Nat` (each entry one octet).  Multi-byte
integers use little-endian order throughout (the source uses `NativeEndian`
on a little-endian target; the spec fixes little-endian).  Machine-integer
overflow is made explicit with `% 2^w`.  A Rust function that can panic
(slice indexing out of bounds, integer overflow in debug profile, capacity
overflow, an explicit `panic!`) is modelled with the distinguished outcome
`PResult.panik`; a loop that cannot terminate maps to `PResult.hang`.
-/

/-- Errors surfaced by the library (`io::Error` kinds and OS errors). -/
inductive NlError where
  /-- `io::ErrorKind::InvalidData` -/
  | invalidData
  /-- `io::ErrorKind::InvalidData` with text "Invalid PID" (`parse_data`) -/
  | invalidPid
  /-- `io::ErrorKind::InvalidData` with text "Invalid Sequence" (`parse_data`) -/
  | invalidSequence
  /-- `io::ErrorKind::UnexpectedEof` from a failed `read_exact` / `read_uXX` -/
  | eof
  /-- `io::Error::from_raw_os_error(code)` -/
  | osError (code : Int)
  /-- `io::ErrorKind::NotFound` -/
  | notFound
deriving DecidableEq, Repr

/-- Outcome of running a piece of Rust code: a returned value, a returned
`Err`, a panic (out-of-bounds slice index, arithmetic overflow, explicit
`panic!`), or non-termination. -/
inductive PResult (α : Type) where
  | ok (value : α)
  | err (e : NlError)
  | panik
  | hang
deriving DecidableEq, Repr

/-- Little-endian recomposition of a byte list: first byte is least
significant (`byteorder::NativeEndian` on the little-endian target). -/
def leVal : List Nat → Nat
  | [] => 0
  | b :: rest => b + 256 * leVal rest

/-- The two little-endian bytes of a 16-bit value (`write_u16`). -/
def le16 (v : Nat) : List Nat :=
  [v % 256, v / 256 % 256]

/-- The four little-endian bytes of a 32-bit value (`write_u32`). -/
def le32 (v : Nat) : List Nat :=
  [v % 256, v / 256 % 256, v / 65536 % 256, v / 16777216 % 256]

/-- Read the little-endian 16-bit value at the head of a byte slice
(`NativeEndian::read_u16` on a pre-validated slice). -/
def getLe16 (data : List Nat) : Nat :=
  leVal (data.take 2)

/-- Read the little-endian 32-bit value at the head of a byte slice
(`NativeEndian::read_u32` on a pre-validated slice). -/
def getLe32 (data : List Nat) : Nat :=
  leVal (data.take 4)

/-! ## Information elements — `src/src/information_element.rs` -/

/-- `RawInformationElement` (borrowing parser output): identifier byte and
payload slice. -/
structure RawInformationElement where
  identifier : Nat
  data : List Nat
deriving DecidableEq, Repr

/-- `RawInformationElement::parse`.  The source checks `data.len() < 2` and
`data.len() < length` and then takes the slice `&data[2..(length + 2)]`;
that slice expression panics whenever `length + 2 > data.len()`, which the
preceding checks do not rule out. -/
def RawInformationElement.parse (data : List Nat) : PResult RawInformationElement :=
  if data.length < 2 then .err .invalidData
  else
    -- u8::unpack_unchecked(data) and u8::unpack_unchecked(&data[1..]);
    -- both indices are covered by the length-2 check above
    let identifier := data.getD 0 0
    let length := data.getD 1 0
    if data.length < length then .err .invalidData
    else if data.length < length + 2 then .panik
    else .ok ⟨identifier, (data.drop 2).take length⟩

/-- `CipherSuite` variants. -/
inductive CipherSuite where
  | UseGroupCipherSuite
  | WiredEquivalentPrivacy40
  | TemporalKeyIntegrityProtocol
  | CounterModeCbcMacProtocol
  | WiredEquivalentPrivacy104
  | BroadcastIntegrityProtocol
  | GroupAddressedTrafficNotAllowed
  | Reserved (v : Nat)
  | Vendor (v : Nat)
deriving DecidableEq, Repr

/-- `impl From<u32> for CipherSuite`: standard (OUI 00-0F-AC) suites are
recognised by `v & 0x00ff_ffff == 0x00ac_0f00`; the high byte selects the
suite. -/
def CipherSuite.fromU32 (v : Nat) : CipherSuite :=
  if v &&& 0xffffff = 0xac0f00 then
    let c := v / 16777216 % 256
    match c with
    | 0 => .UseGroupCipherSuite
    | 1 => .WiredEquivalentPrivacy40
    | 2 => .TemporalKeyIntegrityProtocol
    | 4 => .CounterModeCbcMacProtocol
    | 5 => .WiredEquivalentPrivacy104
    | 6 => .BroadcastIntegrityProtocol
    | 7 => .GroupAddressedTrafficNotAllowed
    | _ => .Reserved c
  else .Vendor v

/-- `AuthenticationKeyManagement` variants. -/
inductive AuthenticationKeyManagement where
  | PairwiseMasterKeySecurityAssociation
  | PreSharedKey
  | FastTransitionPMKSA
  | FastTransitionPreSharedKey
  | PMKSASha256
  | PreSharedKeySha256
  | TunneledDirectLinkSetup
  | SimultaneousAuthenticationOfEquals
  | FastTransitionSAE
  | Reserved (v : Nat)
  | Vendor (v : Nat)
deriving DecidableEq, Repr

/-- `impl From<u32> for AuthenticationKeyManagement`. -/
def AuthenticationKeyManagement.fromU32 (v : Nat) : AuthenticationKeyManagement :=
  if v &&& 0xffffff = 0xac0f00 then
    let c := v / 16777216 % 256
    match c with
    | 1 => .PairwiseMasterKeySecurityAssociation
    | 2 => .PreSharedKey
    | 3 => .FastTransitionPMKSA
    | 4 => .FastTransitionPreSharedKey
    | 5 => .PMKSASha256
    | 6 => .PreSharedKeySha256
    | 7 => .TunneledDirectLinkSetup
    | 8 => .SimultaneousAuthenticationOfEquals
    | 9 => .FastTransitionSAE
    | _ => .Reserved c
  else .Vendor v

/-- `unpack_vec::<u32>` from `src/src/unpack.rs`.  The source loop is

    let r = (0, data);
    for _ in 0..size {
        let r = T::unpack(r.1);
        items.push(r.0);
    }

where the inner `let r` shadows instead of rebinding, so every iteration
unpacks from the start of `data` and the returned vector holds `size`
copies of the first element.  `T::unpack` reads four bytes unconditionally
(`NativeEndian::read_u32` panics on a shorter slice) and the final
`&data[octets..]` panics when `octets > data.len()`.  The result carries
the element vector and the consumed octet count (the source returns the
remainder slice `&data[octets..]`, the complement of the same count, and
the caller in `information_element.rs` binds the consumed count as
`used`). -/
def unpackVecU32 (data : List Nat) (size : Nat) : PResult (List Nat × Nat) :=
  if size = 0 then .ok ([], 0)
  else if data.length < 4 then .panik
  else if data.length < 4 * size then .panik
  else .ok (List.replicate size (getLe32 data), 4 * size)

/-- Modelled from the spec: `u16::unpack_with_size`, the checked decode of
§4.1(a), used by `RobustSecurityNetwork::parse` but defined in a revision
of `unpack.rs` that is not part of the sources; it fails with a length
error when the slice is shorter than two bytes and otherwise returns the
consumed size and the value. -/
def unpackWithSizeU16 (data : List Nat) : PResult (Nat × Nat) :=
  if data.length < 2 then .err .invalidData
  else .ok (2, getLe16 data)

/-- `RsnCapabilities::from_bits_truncate`: keep only the defined capability
bits (0x0001, 0x0002, 0x0040, 0x0080, 0x0200, 0x0400, 0x0800, 0x1000,
0x2000). -/
def rsnCapabilitiesTruncate (v : Nat) : Nat :=
  v &&& 0x3ec3

/-- `RobustSecurityNetwork` element data. -/
structure RobustSecurityNetwork where
  version : Nat
  cipher_suite : CipherSuite
  ciphers : List CipherSuite
  akms : List AuthenticationKeyManagement
  capabilities : Nat
  ptksa_counters : Nat
  gtksa_counters : Nat
deriving DecidableEq, Repr

/-- `RobustSecurityNetwork::parse`. -/
def RobustSecurityNetwork.parse (data : List Nat) : PResult RobustSecurityNetwork :=
  if data.length > 8 then
    -- the three unchecked reads below are covered by data.len() > 8
    let version := getLe16 data
    let value := getLe32 (data.drop 2)
    let suite := CipherSuite.fromU32 value
    let count := getLe16 (data.drop 6)
    match unpackVecU32 (data.drop 8) count with
    | .err e => .err e
    | .panik => .panik
    | .hang => .hang
    | .ok (values, used) =>
      let offset := 8 + used
      let ciphers := values.map CipherSuite.fromU32
      match unpackWithSizeU16 (data.drop offset) with
      | .err e => .err e
      | .panik => .panik
      | .hang => .hang
      | .ok (used2, count2) =>
        let offset := offset + used2
        match unpackVecU32 (data.drop offset) count2 with
        | .err e => .err e
        | .panik => .panik
        | .hang => .hang
        | .ok (values2, used3) =>
          let offset := offset + used3
          let akms := values2.map AuthenticationKeyManagement.fromU32
          match unpackWithSizeU16 (data.drop offset) with
          | .err e => .err e
          | .panik => .panik
          | .hang => .hang
          | .ok (_, count3) =>
            let ptksa_counters :=
              match count3 &&& 0x000c with
              | 0x0004 => 2
              | 0x0008 => 4
              | 0x000c => 16
              | _ => 1
            let gtksa_counters :=
              match count3 &&& 0x0030 with
              | 0x0010 => 2
              | 0x0020 => 4
              | 0x0030 => 16
              | _ => 1
            .ok ⟨version, suite, ciphers, akms,
                 rsnCapabilitiesTruncate count3, ptksa_counters, gtksa_counters⟩
  else .err .invalidData

/-- `HighThroughputOperation` element data. -/
structure HighThroughputOperation where
  width : Nat
  primary_channel : Nat
  secondary_channel : Nat
deriving DecidableEq, Repr

/-- `HighThroughputOperation::parse`.  The secondary-channel additions
`data[0] + 1` / `data[0] - 1` are u8 arithmetic; they are modelled with
wrap-around (`% 256`, release profile). -/
def HighThroughputOperation.parse (data : List Nat) : PResult HighThroughputOperation :=
  if data.length = 22 then
    let b0 := data.getD 0 0
    let secondary_channel :=
      match data.getD 1 0 &&& 0x03 with
      | 1 => (b0 + 1) % 256
      | 3 => (b0 + 255) % 256
      | _ => 0
    let width := if data.getD 1 0 &&& 0x04 = 0 then 20 else 40
    .ok ⟨width, b0, secondary_channel⟩
  else .err .invalidData

/-- `MaxVhtMcs` variants. -/
inductive MaxVhtMcs where
  | VhtMcs0to7
  | VhtMcs0to8
  | VhtMcs0to9
  | NotSupported
deriving DecidableEq, Repr

/-- `impl From<u8> for MaxVhtMcs`. -/
def MaxVhtMcs.fromU8 (v : Nat) : MaxVhtMcs :=
  match v with
  | 0 => .VhtMcs0to7
  | 1 => .VhtMcs0to8
  | 2 => .VhtMcs0to9
  | _ => .NotSupported

/-- `VeryHighThroughputOperation` element data. -/
structure VeryHighThroughputOperation where
  width : Nat
  channel : Nat
  secondary_channel : Nat
  max_vht_mcs_ss : List MaxVhtMcs
deriving DecidableEq, Repr

/-- `VeryHighThroughputOperation::parse`. -/
def VeryHighThroughputOperation.parse (data : List Nat) : PResult VeryHighThroughputOperation :=
  if data.length = 5 then
    let width :=
      match data.getD 0 0 &&& 0x03 with
      | 1 => 80
      | 2 => 160
      | 3 => 80
      | _ => 40
    let b3 := data.getD 3 0
    let b4 := data.getD 4 0
    let max_vht_mcs_ss :=
      [MaxVhtMcs.fromU8 (b3 &&& 0x03), MaxVhtMcs.fromU8 ((b3 &&& 0x0c) / 4),
       MaxVhtMcs.fromU8 ((b3 &&& 0x30) / 16), MaxVhtMcs.fromU8 ((b3 &&& 0xc0) / 64),
       MaxVhtMcs.fromU8 (b4 &&& 0x03), MaxVhtMcs.fromU8 ((b4 &&& 0x0c) / 4),
       MaxVhtMcs.fromU8 ((b4 &&& 0x30) / 16), MaxVhtMcs.fromU8 ((b4 &&& 0xc0) / 64)]
    .ok ⟨width, data.getD 1 0, data.getD 2 0, max_vht_mcs_ss⟩
  else .err .invalidData

/-- `ChannelSwitchMode` variants. -/
inductive ChannelSwitchMode where
  | NoRestriction
  | NoTransmission
deriving DecidableEq, Repr

/-- `impl From<u8> for ChannelSwitchMode` (this revision: `1 =>
NoTransmission`, everything else `NoRestriction`). -/
def ChannelSwitchMode.fromU8 (v : Nat) : ChannelSwitchMode :=
  match v with
  | 1 => .NoTransmission
  | _ => .NoRestriction

/-- `ChannelSwitchAnnouncement` element data. -/
structure ChannelSwitchAnnouncement where
  switch_mode : ChannelSwitchMode
  new_channel : Nat
  switch_count : Nat
deriving DecidableEq, Repr

/-- `ChannelSwitchAnnouncement::parse`. -/
def ChannelSwitchAnnouncement.parse (data : List Nat) : PResult ChannelSwitchAnnouncement :=
  if data.length = 4 then
    .ok ⟨ChannelSwitchMode.fromU8 (data.getD 0 0), data.getD 1 0, data.getD 2 0⟩
  else .err .invalidData

/-- `ExtendedChannelSwitchAnnouncement` element data. -/
structure ExtendedChannelSwitchAnnouncement where
  switch_mode : ChannelSwitchMode
  new_operating_class_field : Nat
  new_channel : Nat
  switch_count : Nat
deriving DecidableEq, Repr

/-- `ExtendedChannelSwitchAnnouncement::parse`. -/
def ExtendedChannelSwitchAnnouncement.parse (data : List Nat) :
    PResult ExtendedChannelSwitchAnnouncement :=
  if data.length = 4 then
    .ok ⟨ChannelSwitchMode.fromU8 (data.getD 0 0), data.getD 1 0,
         data.getD 2 0, data.getD 3 0⟩
  else .err .invalidData

/-- Two bytes form a complete valid UTF-8 string iff both are ASCII or they
are a two-byte sequence (lead 0xC2–0xDF, continuation 0x80–0xBF). -/
def validUtf8Pair (b0 b1 : Nat) : Bool :=
  (b0 < 128 && b1 < 128) || (0xc2 ≤ b0 && b0 ≤ 0xdf && 0x80 ≤ b1 && b1 ≤ 0xbf)

/-- `Country` element data; the decoded alpha-2 string is represented by its
two bytes. -/
structure Country where
  alpha2 : List Nat
deriving DecidableEq, Repr

/-- `Country::parse`.  `String::from_utf8(data[..2].to_vec()).unwrap()`
panics when the first two bytes are not valid UTF-8. -/
def Country.parse (data : List Nat) : PResult Country :=
  if data.length ≥ 6 then
    if validUtf8Pair (data.getD 0 0) (data.getD 1 0) then
      .ok ⟨data.take 2⟩
    else .panik
  else .err .invalidData

/-- `Ssid` element data.  The decoded string is abstracted by the raw
payload bytes: the source decoding chain (UTF-8, then ISO-8859-1, then the
empty string, then trailing-NUL trim) never fails, so `Ssid::parse` is
total and always returns `Ok`. -/
structure Ssid where
  raw : List Nat
deriving DecidableEq, Repr

/-- `Ssid::parse`. -/
def Ssid.parse (data : List Nat) : PResult Ssid :=
  .ok ⟨data⟩

/-! ## Identifier tables — `extended_enum!`, `extended_enum_default!` and
the build-generated enumerations -/

/-- Modelled from the spec: the generated `InformationElementId`
enumeration (module `information_element_ids`, produced by the build-time
code generator, absent from the sources).  Only the members dispatched on
by `InformationElement::from` are listed, with their IEEE 802.11 element
ids; the generated `ConvertFrom` returns `None` off the table and the
generated `From` panics off the table. -/
inductive InformationElementId where
  | Ssid
  | Country
  | ChannelSwitchAnnouncement
  | RobustSecurityNetwork
  | ExtendedChannelSwitchAnnouncement
  | HighThroughputOperation
  | VeryHighThroughputOperation
deriving DecidableEq, Repr

/-- Modelled from the spec: the generated
`ConvertFrom<u8> for InformationElementId` — `Some` on the table,
`None` otherwise. -/
def InformationElementId.convertFrom (v : Nat) : Option InformationElementId :=
  match v with
  | 0 => some .Ssid
  | 7 => some .Country
  | 37 => some .ChannelSwitchAnnouncement
  | 48 => some .RobustSecurityNetwork
  | 60 => some .ExtendedChannelSwitchAnnouncement
  | 61 => some .HighThroughputOperation
  | 193 => some .VeryHighThroughputOperation
  | _ => none

/-- Modelled from the spec: the generated `From<u8> for
InformationElementId`, which ends in `_ => panic!("Bad value")`
(see `netlink/buildtools/src/lib.rs`, `generate_enum`). -/
def InformationElementId.fromU8 (v : Nat) : PResult InformationElementId :=
  match InformationElementId.convertFrom v with
  | some id => .ok id
  | none => .panik

/-- `InformationElement` with processed payload (`Other` keeps the raw
identifier and payload). -/
inductive InformationElement where
  | ssid (v : Ssid)
  | country (v : Country)
  | channelSwitchAnnouncement (v : ChannelSwitchAnnouncement)
  | robustSecurityNetwork (v : RobustSecurityNetwork)
  | extendedChannelSwitchAnnouncement (v : ExtendedChannelSwitchAnnouncement)
  | highThroughputOperation (v : HighThroughputOperation)
  | veryHighThroughputOperation (v : VeryHighThroughputOperation)
  | other (v : RawInformationElement)
deriving DecidableEq, Repr

/-- `InformationElement::from`: dispatch a recognised identifier to the
matching typed parser; parser failures propagate (the `?` operator). -/
def InformationElement.fromId (id : InformationElementId) (data : List Nat) :
    PResult InformationElement :=
  match id with
  | .Ssid =>
    match Ssid.parse data with
    | .ok ie => .ok (.ssid ie)
    | .err e => .err e
    | .panik => .panik
    | .hang => .hang
  | .Country =>
    match Country.parse data with
    | .ok ie => .ok (.country ie)
    | .err e => .err e
    | .panik => .panik
    | .hang => .hang
  | .ChannelSwitchAnnouncement =>
    match ChannelSwitchAnnouncement.parse data with
    | .ok ie => .ok (.channelSwitchAnnouncement ie)
    | .err e => .err e
    | .panik => .panik
    | .hang => .hang
  | .RobustSecurityNetwork =>
    match RobustSecurityNetwork.parse data with
    | .ok ie => .ok (.robustSecurityNetwork ie)
    | .err e => .err e
    | .panik => .panik
    | .hang => .hang
  | .ExtendedChannelSwitchAnnouncement =>
    match ExtendedChannelSwitchAnnouncement.parse data with
    | .ok ie => .ok (.extendedChannelSwitchAnnouncement ie)
    | .err e => .err e
    | .panik => .panik
    | .hang => .hang
  | .HighThroughputOperation =>
    match HighThroughputOperation.parse data with
    | .ok ie => .ok (.highThroughputOperation ie)
    | .err e => .err e
    | .panik => .panik
    | .hang => .hang
  | .VeryHighThroughputOperation =>
    match VeryHighThroughputOperation.parse data with
    | .ok ie => .ok (.veryHighThroughputOperation ie)
    | .err e => .err e
    | .panik => .panik
    | .hang => .hang

/-- `InformationElement::parse`: frame a raw element, then either dispatch
its recognised identifier (`RawInformationElement::ie_id`, backed by
`ConvertFrom`) or fall back to `Other`. -/
def InformationElement.parse (data : List Nat) : PResult InformationElement :=
  match RawInformationElement.parse data with
  | .err e => .err e
  | .panik => .panik
  | .hang => .hang
  | .ok raw =>
    match InformationElementId.convertFrom raw.identifier with
    | some id => InformationElement.fromId id raw.data
    | none => .ok (.other raw)

/-- `InformationElement::identifier`: typed variants report their table
entry; the `Other` arm calls `InformationElementId::from(ie.identifier)`,
whose generated implementation panics on identifiers outside the table. -/
def InformationElement.identifier : InformationElement → PResult InformationElementId
  | .ssid _ => .ok .Ssid
  | .country _ => .ok .Country
  | .channelSwitchAnnouncement _ => .ok .ChannelSwitchAnnouncement
  | .robustSecurityNetwork _ => .ok .RobustSecurityNetwork
  | .extendedChannelSwitchAnnouncement _ => .ok .ExtendedChannelSwitchAnnouncement
  | .highThroughputOperation _ => .ok .HighThroughputOperation
  | .veryHighThroughputOperation _ => .ok .VeryHighThroughputOperation
  | .other raw => InformationElementId.fromU8 raw.identifier

/-- `FamilyId` from `src/netlink/src/generic.rs`, declared with
`extended_enum!`: it has no default member. -/
inductive FamilyId where
  | Control
  | VirtualFileSystemDiskQuota
  | Raid
deriving DecidableEq, Repr

/-- `impl From<u16> for FamilyId`, produced by `extended_enum!`
(`src/netlink/src/core/helpers.rs`): values outside the table run
`panic!("Bad Value")`. -/
def FamilyId.fromU16 (v : Nat) : PResult FamilyId :=
  match v with
  | 16 => .ok .Control
  | 17 => .ok .VirtualFileSystemDiskQuota
  | 18 => .ok .Raid
  | _ => .panik

/-- `ConvertFrom<u16> for FamilyId`, produced by `extended_enum!`:
`None` off the table. -/
def FamilyId.convertFrom (v : Nat) : Option FamilyId :=
  match v with
  | 16 => some .Control
  | 17 => some .VirtualFileSystemDiskQuota
  | 18 => some .Raid
  | _ => none

/-- Generic-netlink `Command` from `src/netlink/src/generic.rs`, declared
with `extended_enum_default!`: `Unspecified` is the default member. -/
inductive GenlCommand where
  | Unspecified
  | NewFamily
  | DelFamily
  | GetFamily
  | NewOps
  | DelOps
  | GetOps
  | NewMulticastGroup
  | DelMulticastGroup
  | GetMulticastGroup
deriving DecidableEq, Repr

/-- `impl From<u8> for Command`, produced by `extended_enum_default!`:
values outside the table fall back to the default member `Unspecified`. -/
def GenlCommand.fromU8 (v : Nat) : GenlCommand :=
  match v with
  | 0 => .Unspecified
  | 1 => .NewFamily
  | 2 => .DelFamily
  | 3 => .GetFamily
  | 4 => .NewOps
  | 5 => .DelOps
  | 6 => .GetOps
  | 7 => .NewMulticastGroup
  | 8 => .DelMulticastGroup
  | 9 => .GetMulticastGroup
  | _ => .Unspecified

/-! ## Netlink core — `src/netlink/src/core/mod.rs`

Reader state is a byte buffer plus a cursor position, mirroring
`io::Cursor<&[u8]>`; each reading function returns the value together with
the new position. -/

/-- Kernel ABI constant `NLMSG_NOOP`. -/
def NLMSG_NOOP : Nat := 1

/-- Kernel ABI constant `NLMSG_ERROR`. -/
def NLMSG_ERROR : Nat := 2

/-- Kernel ABI constant `NLMSG_DONE`. -/
def NLMSG_DONE : Nat := 3

/-- Kernel ABI flag `NLM_F_REQUEST`. -/
def NLM_F_REQUEST : Nat := 1

/-- Kernel ABI flag `NLM_F_MULTI` (the MULTIPART bit). -/
def NLM_F_MULTI : Nat := 2

/-- Kernel ABI flag `NLM_F_ACK`. -/
def NLM_F_ACK : Nat := 4

/-- Kernel ABI flag `NLM_F_DUMP` (`NLM_F_ROOT | NLM_F_MATCH`). -/
def NLM_F_DUMP : Nat := 0x300

/-- `align_to(len, 4)` specialised to `NLMSG_ALIGNTO = 4`: the source
computes `(len + 4 - 1) & !(4 - 1)`, which for every in-range `usize`
equals rounding `len + 3` down to a multiple of four. -/
def netlinkAlign (len : Nat) : Nat :=
  (len + 3) / 4 * 4

/-- `netlink_padding(len) = netlink_align(len) - len`. -/
def netlinkPadding (len : Nat) : Nat :=
  netlinkAlign len - len

/-- `u8::read` (`read_u8`): one byte at the cursor, or `UnexpectedEof`. -/
def readU8 (buf : List Nat) (pos : Nat) : PResult (Nat × Nat) :=
  if pos + 1 ≤ buf.length then .ok (buf.getD pos 0, pos + 1)
  else .err .eof

/-- `u16::read` (`read_u16::<NativeEndian>`): two little-endian bytes at
the cursor, or `UnexpectedEof`. -/
def readU16 (buf : List Nat) (pos : Nat) : PResult (Nat × Nat) :=
  if pos + 2 ≤ buf.length then .ok (leVal ((buf.drop pos).take 2), pos + 2)
  else .err .eof

/-- `u32::read` (`read_u32::<NativeEndian>`): four little-endian bytes at
the cursor, or `UnexpectedEof`. -/
def readU32 (buf : List Nat) (pos : Nat) : PResult (Nat × Nat) :=
  if pos + 4 ≤ buf.length then .ok (leVal ((buf.drop pos).take 4), pos + 4)
  else .err .eof

/-- Two's-complement reinterpretation of a 32-bit unsigned value as `i32`. -/
def toI32 (v : Nat) : Int :=
  if v < 2147483648 then (v : Int) else (v : Int) - 4294967296

/-- `i32::read` (`read_i32::<NativeEndian>`). -/
def readI32 (buf : List Nat) (pos : Nat) : PResult (Int × Nat) :=
  match readU32 buf pos with
  | .ok (v, p) => .ok (toI32 v, p)
  | .err e => .err e
  | .panik => .panik
  | .hang => .hang

/-- `Read::read_exact` into a buffer of `n` bytes on a cursor: succeeds
exactly when `n` bytes remain (an empty request always succeeds), failing
with `UnexpectedEof` otherwise. -/
def readExact (buf : List Nat) (pos n : Nat) : PResult (List Nat × Nat) :=
  if n = 0 then .ok ([], pos)
  else if pos + n ≤ buf.length then .ok ((buf.drop pos).take n, pos + n)
  else .err .eof

/-- Netlink message `Header`: `{length:u32, identifier:u16, flags:u16,
sequence:u32, pid:u32}` (16 bytes, `size_of::<Header>()`). -/
structure Header where
  length : Nat
  identifier : Nat
  flags : Nat
  sequence : Nat
  pid : Nat
deriving DecidableEq, Repr

/-- `Header::parse`: the five fixed fields in order. -/
def Header.parse (buf : List Nat) (pos : Nat) : PResult (Header × Nat) :=
  match readU32 buf pos with
  | .err e => .err e | .panik => .panik | .hang => .hang
  | .ok (length, p1) =>
  match readU16 buf p1 with
  | .err e => .err e | .panik => .panik | .hang => .hang
  | .ok (identifier, p2) =>
  match readU16 buf p2 with
  | .err e => .err e | .panik => .panik | .hang => .hang
  | .ok (flags, p3) =>
  match readU32 buf p3 with
  | .err e => .err e | .panik => .panik | .hang => .hang
  | .ok (sequence, p4) =>
  match readU32 buf p4 with
  | .err e => .err e | .panik => .panik | .hang => .hang
  | .ok (pid, p5) => .ok (⟨length, identifier, flags, sequence, pid⟩, p5)

/-- `Header::aligned_length`. -/
def Header.alignedLength (h : Header) : Nat :=
  netlinkAlign h.length

/-- `Header::check_pid(pid)`: `self.pid == 0 || self.pid == pid`. -/
def Header.checkPid (h : Header) (pid : Nat) : Bool :=
  h.pid == 0 || h.pid == pid

/-- `Header::check_sequence(sequence)`: `self.pid == 0 || self.sequence ==
sequence`. -/
def Header.checkSequence (h : Header) (sequence : Nat) : Bool :=
  h.pid == 0 || h.sequence == sequence

/-- `DataMessage::parse`: reads `header.data_length() = length - 16` bytes.
When `length < 16` the `usize` subtraction underflows (panic in the debug
profile; in release it wraps and the following `vec![0u8; data_length]`
aborts with a capacity overflow), modelled as a panic. -/
def DataMessage.parse (buf : List Nat) (pos : Nat) (h : Header) :
    PResult ((Header × List Nat) × Nat) :=
  if h.length < 16 then .panik
  else
    match readExact buf pos (h.length - 16) with
    | .err e => .err e | .panik => .panik | .hang => .hang
    | .ok (data, p) => .ok ((h, data), p)

/-- `ErrorMessage`: code and original header. -/
structure ErrorMessage where
  header : Header
  code : Int
  original_header : Header
deriving DecidableEq, Repr

/-- `ErrorMessage::parse`: an `i32` code followed by the embedded original
header. -/
def ErrorMessage.parse (buf : List Nat) (pos : Nat) (h : Header) :
    PResult (ErrorMessage × Nat) :=
  match readI32 buf pos with
  | .err e => .err e | .panik => .panik | .hang => .hang
  | .ok (code, p1) =>
  match Header.parse buf p1 with
  | .err e => .err e | .panik => .panik | .hang => .hang
  | .ok (original, p2) => .ok (⟨h, code, original⟩, p2)

/-- `Message` variants produced by the framing layer. -/
inductive Message where
  | data (header : Header) (payload : List Nat)
  | acknowledge
  | done
deriving DecidableEq, Repr

/-- Netlink `Attribute`: identifier and payload bytes. -/
structure Attribute where
  identifier : Nat
  data : List Nat
deriving DecidableEq, Repr

/-- `Attribute::parse`.  The source computes `(length -
Attribute::HEADER_SIZE) as usize` with no check that `length >= 4`: on a
declared length below four the `u16` subtraction underflows (panic in the
debug profile); the release profile wraps modulo 2^16, which is what is
modelled here.  After the payload, the cursor seeks over
`netlink_padding(length)` bytes (a cursor may seek past the end). -/
def Attribute.parse (buf : List Nat) (pos : Nat) : PResult (Attribute × Nat) :=
  match readU16 buf pos with
  | .err e => .err e | .panik => .panik | .hang => .hang
  | .ok (length, p1) =>
  let padding := netlinkPadding length
  let dataLength := (length + 65536 - 4) % 65536
  match readU16 buf p1 with
  | .err e => .err e | .panik => .panik | .hang => .hang
  | .ok (identifier, p2) =>
  match readExact buf p2 dataLength with
  | .err e => .err e | .panik => .panik | .hang => .hang
  | .ok (data, p3) => .ok (⟨identifier, data⟩, p3 + padding)

/-- `Attribute::write`: `length:u16 (= payload + 4, truncated to u16),
identifier:u16, payload` — no padding (the framing layer pads between
attributes). -/
def Attribute.write (a : Attribute) : List Nat :=
  le16 ((a.data.length + 4) % 65536) ++ le16 (a.identifier % 65536) ++ a.data

/-- `MessageFlags::from_bits(flags).unwrap_or(MessageFlags::empty())`:
the known flag bits are `REQUEST | MULTIPART | ACKNOWLEDGE | DUMP =
0x307`; a word with any other bit set yields `None` from `from_bits` and
is replaced by the empty flag set. -/
def effectiveFlags (flags : Nat) : Nat :=
  if flags &&& 0xfcf8 = 0 then flags else 0

/-- One pass of the `while pos < bytes` loop in `Socket::parse_data`,
with explicit fuel (the source loop does not terminate when a NOOP header
declares an aligned length of zero; exhausted fuel maps to `hang`).
Arguments: socket pid, expected sequence, acknowledge-expected flag,
receive buffer, fuel, position, accumulated messages (the `messages` out
parameter) and the `more_messages` flag. -/
def parseDataLoop (sockPid seqExp : Nat) (ack : Bool) (buf : List Nat) :
    Nat → Nat → List Message → Bool → PResult (List Message × Bool)
  | 0, _, _, _ => .hang
  | fuel + 1, pos, msgs, more =>
    if pos < buf.length then
      match Header.parse buf pos with
      | .err e => .err e | .panik => .panik | .hang => .hang
      | .ok (h, rpos) =>
        let npos := pos + h.alignedLength
        if ¬ h.checkPid sockPid then .err .invalidPid
        else if ¬ h.checkSequence seqExp then .err .invalidSequence
        else if h.identifier = NLMSG_NOOP then
          parseDataLoop sockPid seqExp ack buf fuel npos msgs more
        else if h.identifier = NLMSG_ERROR then
          match ErrorMessage.parse buf rpos h with
          | .err e => .err e | .panik => .panik | .hang => .hang
          | .ok (emsg, _) =>
            if emsg.code ≠ 0 then .err (.osError (-emsg.code))
            else parseDataLoop sockPid seqExp ack buf fuel npos (msgs ++ [.acknowledge]) more
        else if h.identifier = NLMSG_DONE then
          parseDataLoop sockPid seqExp ack buf fuel npos (msgs ++ [.done]) more
        else
          match DataMessage.parse buf rpos h with
          | .err e => .err e | .panik => .panik | .hang => .hang
          | .ok ((hd, payload), _) =>
            let flags := effectiveFlags h.flags
            let more' := more || (flags &&& NLM_F_MULTI ≠ 0 || ack)
            parseDataLoop sockPid seqExp ack buf fuel npos (msgs ++ [.data hd payload]) more'
    else .ok (msgs, more)

/-- `Socket::parse_data(bytes, messages)`: run the loop over one received
datagram; the returned list is the suffix appended to the caller's message
vector and the boolean is `more_messages`. -/
def parseData (sockPid seqExp : Nat) (ack : Bool) (buf : List Nat) :
    PResult (List Message × Bool) :=
  parseDataLoop sockPid seqExp ack buf (buf.length + 1) 0 [] false

/-- The continuation criterion applied by `parse_data` to each pushed
message: a `Data` message whose effective header flags contain the
MULTIPART bit, or any `Data` message when the socket expects an
acknowledgement, sets `more_messages`. -/
def continuationMark (ack : Bool) : Message → Bool
  | .data h _ => decide (effectiveFlags h.flags &&& NLM_F_MULTI ≠ 0) || ack
  | _ => false

/-- The `Socket` fields that carry the sequence/acknowledge state
(`sequence_next`, `sequence_expected`, `acknowledge_expected`). -/
structure SocketState where
  sequence_next : Nat
  sequence_expected : Nat
  acknowledge_expected : Bool
deriving DecidableEq, Repr

/-- The sequence/acknowledge state of a freshly constructed socket
(`Socket::new_multicast`): `sequence_next: 1, sequence_expected: 0,
acknowledge_expected: false`. -/
def SocketState.new : SocketState :=
  ⟨1, 0, false⟩

/-- The state transition of a successful `Socket::send_message`, together
with the sequence number written into the outgoing header: the header
takes `sequence_next`; then `acknowledge_expected` records whether the
message flags contain `ACKNOWLEDGE`, `sequence_expected` takes the written
sequence and `sequence_next` is incremented (u32 arithmetic). -/
def SocketState.sendMessage (s : SocketState) (flags : Nat) : SocketState × Nat :=
  let written := s.sequence_next
  (⟨(written + 1) % 4294967296, written, flags &&& NLM_F_ACK ≠ 0⟩, written)

/-- The socket state after `n` successful sends from a fresh socket, the
`n`-th send using flag word `fs n`. -/
def socketAfterSends (fs : Nat → Nat) : Nat → SocketState
  | 0 => SocketState.new
  | n + 1 => (SocketState.sendMessage (socketAfterSends fs n) (fs n)).1

/-- The sequence number written by the `n`-th send (counting from zero)
from a fresh socket. -/
def sentSequence (fs : Nat → Nat) (n : Nat) : Nat :=
  (SocketState.sendMessage (socketAfterSends fs n) (fs n)).2

/-! ## Helper lemmas -/

theorem leVal_cons (b : Nat) (rest : List Nat) :
    leVal (b :: rest) = b + 256 * leVal rest :=
  rfl

theorem leVal_le32 (v : Nat) (hv : v < 4294967296) : leVal (le32 v) = v := by
  simp only [le32, leVal]
  omega

theorem leVal_le16 (v : Nat) (hv : v < 65536) : leVal (le16 v) = v := by
  simp only [le16, leVal]
  omega

theorem readU16_le16_prefix (v : Nat) (rest : List Nat) :
    readU16 (le16 v ++ rest) 0 = .ok (v % 65536, 2) := by
  simp only [readU16, le16, List.cons_append, List.nil_append, List.drop_zero,
    List.take_succ_cons, List.take_zero, leVal, List.length_cons]
  rw [if_pos (by omega)]
  simp only [PResult.ok.injEq, Prod.mk.injEq, and_true]
  omega

/-! ## Claim theorems -/

/-- C1: the claim says `RawInformationElement::parse` returns a data error
— and never panics — whenever the buffer has fewer than `2 + length`
bytes.  The source only rejects `data.len() < 2` and `data.len() <
length`, so on `[1, 1]` (declared length 1, buffer of 2 bytes, hence
shorter than `2 + 1`) it reaches the slice `&data[2..3]` and panics
instead of returning an error.  The surrounding conjuncts show the
spec-conforming behaviour outside the panic window: success with
identifier `b[0]` and payload `b[2..2+l]` on a full buffer, and a data
error when the buffer is shorter than the declared length itself. -/
theorem rawInformationElement_parse_bounds_window :
    RawInformationElement.parse [48, 6, 1, 2, 3, 4, 5, 6] =
      .ok ⟨48, [1, 2, 3, 4, 5, 6]⟩ ∧
    RawInformationElement.parse [48, 6, 1, 2] = .err .invalidData ∧
    RawInformationElement.parse [1, 1] = .panik := by
  decide

/-- C2: every typed IE parser rejects a payload one byte shorter than its
minimum length with a clean data error (Country < 6, CSA/ECSA ≠ 4, RSN ≤
8, HT ≠ 22, VHT ≠ 5), but the claim's no-out-of-bounds part fails:
`RobustSecurityNetwork::parse` on the 9-byte payload
`[0,0,0,0,0,0,1,0,0]` (declared pairwise-suite count 1 with only one byte
of suite data left) calls `unpack_vec::<u32>`, which reads four bytes
unconditionally and slices `&data[octets..]` without any bounds check, so
the source panics instead of failing cleanly. -/
theorem typed_ie_parsers_short_payload_and_rsn_overrun :
    Country.parse [65, 66, 1, 2, 3] = .err .invalidData ∧
    ChannelSwitchAnnouncement.parse [0, 0, 0] = .err .invalidData ∧
    ExtendedChannelSwitchAnnouncement.parse [0, 0, 0] = .err .invalidData ∧
    RobustSecurityNetwork.parse [0, 0, 0, 0, 0, 0, 0, 0] = .err .invalidData ∧
    HighThroughputOperation.parse (List.replicate 21 0) = .err .invalidData ∧
    VeryHighThroughputOperation.parse [0, 0x24, 1, 0] = .err .invalidData ∧
    RobustSecurityNetwork.parse [0, 0, 0, 0, 0, 0, 1, 0, 0] = .panik := by
  decide

set_option maxRecDepth 4096 in
/-- C3: the claim says the pairwise cipher suites are read from
consecutive 4-byte positions starting at offset 8.  On the well-formed
24-byte RSN payload below (version 1, group cipher CCMP, pairwise count 2
with suites TKIP then CCMP, one AKM PSK, capabilities 0) the source
instead returns two copies of the first suite — `unpack_vec`'s loop
shadows its own cursor — even though the second consecutive 4-byte
position (offset 12) holds CCMP; the surrounding fields (version, group
cipher, counts, offsets, capability word, PTKSA/GTKSA counters) decode as
the claim says. -/
theorem rsn_parse_repeats_first_pairwise_suite :
    RobustSecurityNetwork.parse
        ([1, 0] ++ [0x00, 0x0f, 0xac, 0x04] ++ [2, 0] ++
         [0x00, 0x0f, 0xac, 0x02] ++ [0x00, 0x0f, 0xac, 0x04] ++
         [1, 0] ++ [0x00, 0x0f, 0xac, 0x02] ++ [0, 0]) =
      .ok ⟨1, .CounterModeCbcMacProtocol,
           [.TemporalKeyIntegrityProtocol, .TemporalKeyIntegrityProtocol],
           [.PreSharedKey], 0, 1, 1⟩ ∧
    CipherSuite.fromU32 (getLe32 (([1, 0] ++ [0x00, 0x0f, 0xac, 0x04] ++ [2, 0] ++
         [0x00, 0x0f, 0xac, 0x02] ++ [0x00, 0x0f, 0xac, 0x04] ++
         [1, 0] ++ [0x00, 0x0f, 0xac, 0x02] ++ [0, 0]).drop 12)) =
      .CounterModeCbcMacProtocol := by
  decide

/-- C5: the claim says `Attribute::parse` returns a data error, without
panicking, for every declared length from 0 through 3.  The source
computes `length - HEADER_SIZE` on `u16` with no such check: in the debug
profile the subtraction itself panics, and with release (wrapping)
semantics a declared length of 3 makes the parser read `(3 - 4) mod 2^16
= 65535` payload bytes, so on the buffer `[3, 0, 0, 0] ++ 65535 filler
bytes` it returns a successfully parsed attribute instead of a data
error. -/
theorem attribute_parse_accepts_declared_length_three (r : List Nat)
    (hr : r.length = 65535) :
    Attribute.parse (3 :: 0 :: 0 :: 0 :: r) 0 = .ok (⟨0, r⟩, 65540) := by
  have htake : r.take 65535 = r := by rw [← hr]; exact List.take_length r
  simp only [Attribute.parse, readU16, readExact, List.drop_succ_cons,
    List.drop_zero, List.take_succ_cons, List.take_zero, leVal, List.length_cons, hr, htake]
  norm_num [netlinkPadding, netlinkAlign, leVal, htake]

/-- C5 witness: the undersized-declared-length acceptance at the concrete
buffer `[3, 0, 0, 0]` followed by 65535 filler bytes. -/
theorem attribute_parse_accepts_declared_length_three_witness :
    Attribute.parse (3 :: 0 :: 0 :: 0 :: List.replicate 65535 7) 0 =
      .ok (⟨0, List.replicate 65535 7⟩, 65540) :=
  attribute_parse_accepts_declared_length_three (List.replicate 65535 7)
    (List.length_replicate 65535 7)

/-- C4 counterexample: the claim says converting a numeric wire identifier
to its symbolic enumeration never fails or panics; `FamilyId::from` — the
very conversion applied to received message-header identifiers in
`get_generic_families` — panics (`panic!("Bad Value")` in the
`extended_enum!` expansion) on the unknown family id 19. -/
theorem familyId_from_unknown_value_panics :
    FamilyId.fromU16 19 = .panik := by
  decide

/-- C4 (amended): conversions that go through a default-carrying table or
through `ConvertFrom` degrade gracefully — an `extended_enum_default!`
table such as the generic-netlink `Command` maps unknown values to
`Unspecified`, and `InformationElement::parse` maps an identifier outside
the IE table to `Other` — but the plain `From` conversions of
`extended_enum!` and of the generated tables panic on values outside the
table: `FamilyId::from` does, and `InformationElement::identifier` does
for an `Other` element with an unknown identifier. -/
theorem unknown_identifier_conversion_behaviour :
    (∀ v, 10 ≤ v → GenlCommand.fromU8 v = .Unspecified) ∧
    (∀ v d, d.length < 256 → InformationElementId.convertFrom v = none →
      InformationElement.parse (v :: d.length :: d) = .ok (.other ⟨v, d⟩)) ∧
    (∀ v d, InformationElementId.convertFrom v = none →
      InformationElement.identifier (.other ⟨v, d⟩) = .panik) ∧
    (∀ v, FamilyId.convertFrom v = none → FamilyId.fromU16 v = .panik) := by
  refine ⟨?_, ?_, ?_, ?_⟩
  · intro v hv
    obtain ⟨k, rfl⟩ : ∃ k, v = k + 10 := ⟨v - 10, by omega⟩
    rfl
  · intro v d _ hnone
    have hraw : RawInformationElement.parse (v :: d.length :: d) = .ok ⟨v, d⟩ := by
      simp only [RawInformationElement.parse, List.length_cons,
        List.getD_cons_zero, List.getD_cons_succ, List.drop_succ_cons, List.drop_zero]
      rw [if_neg (by omega), if_neg (by omega), if_neg (by omega), List.take_length]
    simp only [InformationElement.parse, hraw, hnone]
  · intro v d hnone
    simp only [InformationElement.identifier, InformationElementId.fromU8, hnone]
  · intro v hnone
    unfold FamilyId.fromU16
    unfold FamilyId.convertFrom at hnone
    split at hnone
    · exact absurd hnone (by simp)
    · exact absurd hnone (by simp)
    · exact absurd hnone (by simp)
    · rfl

/-- C4 witness: the amended behaviour at concrete inputs — command id 57
degrades to `Unspecified`, IE identifier 99 degrades to `Other` in
`InformationElement::parse` but panics in `InformationElement::identifier`,
and family id 20 panics in `FamilyId::from`. -/
theorem unknown_identifier_conversion_behaviour_witness :
    GenlCommand.fromU8 57 = .Unspecified ∧
    InformationElement.parse [99, 2, 5, 6] = .ok (.other ⟨99, [5, 6]⟩) ∧
    InformationElement.identifier (.other ⟨99, []⟩) = .panik ∧
    FamilyId.fromU16 20 = .panik := by
  refine ⟨unknown_identifier_conversion_behaviour.1 57 (by omega),
    ?_,
    unknown_identifier_conversion_behaviour.2.2.1 99 [] (by decide),
    unknown_identifier_conversion_behaviour.2.2.2 20 (by decide)⟩
  have h := unknown_identifier_conversion_behaviour.2.1 99 [5, 6] (by decide) (by decide)
  simpa using h

theorem readU16_le16_second (w v : Nat) (rest : List Nat) :
    readU16 (le16 w ++ (le16 v ++ rest)) 2 = .ok (v % 65536, 4) := by
  simp only [le16, List.cons_append, List.nil_append, readU16, List.length_cons,
    List.drop_succ_cons, List.drop_zero, List.take_succ_cons, List.take_zero, leVal]
  rw [if_pos (by omega)]
  simp only [PResult.ok.injEq, Prod.mk.injEq, and_true]
  omega

theorem readExact_after_four (w v : Nat) (d : List Nat) :
    readExact (le16 w ++ (le16 v ++ d)) 4 d.length = .ok (d, 4 + d.length) := by
  by_cases hd : d.length = 0
  · rw [List.length_eq_zero] at hd
    subst hd
    simp [readExact]
  · simp only [le16, List.cons_append, List.nil_append, readExact, List.length_cons]
    rw [if_neg hd, if_pos (by omega)]
    simp only [List.drop_succ_cons, List.drop_zero, List.take_length,
      PResult.ok.injEq, Prod.mk.injEq, and_true, true_and]

/-- C6: writing any attribute whose payload fits the 16-bit length field
(at most 65531 payload bytes) and parsing the produced bytes returns the
same identifier and payload, and the final cursor position — the bytes
consumed for iteration — is the 4-byte header plus the payload length
rounded up to the next 4-byte boundary. -/
theorem attribute_write_parse_roundtrip (a : Attribute)
    (hid : a.identifier < 65536) (hlen : a.data.length ≤ 65531) :
    Attribute.parse (Attribute.write a) 0 =
      .ok (a, netlinkAlign (a.data.length + 4)) := by
  obtain ⟨id, d⟩ := a
  simp only at hid hlen
  have h1 : (d.length + 4) % 65536 = d.length + 4 := Nat.mod_eq_of_lt (by omega)
  have h2 : id % 65536 % 65536 = id := by omega
  have h3 : (d.length + 4 + 65536 - 4) % 65536 = d.length := by omega
  simp only [Attribute.write, List.append_assoc, Attribute.parse,
    readU16_le16_prefix, h1, h2, h3, readU16_le16_second, readExact_after_four]
  simp only [netlinkPadding, netlinkAlign, PResult.ok.injEq, Prod.mk.injEq, true_and]
  omega

/-- C6 witness: the round-trip at a concrete attribute (identifier 5,
payload `[1, 2, 3]`): re-parsing the written bytes returns the attribute
and consumes `netlink_align(3 + 4) = 8` bytes. -/
theorem attribute_write_parse_roundtrip_witness :
    Attribute.parse (Attribute.write ⟨5, [1, 2, 3]⟩) 0 = .ok (⟨5, [1, 2, 3]⟩, 8) := by
  have h := attribute_write_parse_roundtrip ⟨5, [1, 2, 3]⟩ (by decide) (by decide)
  simpa [netlinkAlign] using h

theorem socketAfterSends_sequence_next (fs : Nat → Nat) (n : Nat) :
    (socketAfterSends fs n).sequence_next = (n + 1) % 4294967296 := by
  induction n with
  | zero => simp [socketAfterSends, SocketState.new]
  | succ n ih =>
    simp only [socketAfterSends, SocketState.sendMessage, ih]
    omega

/-- C10: a fresh socket's next outgoing sequence number is 1; every
successful `send_message` writes `sequence_next` into the outgoing
header, records it as `sequence_expected` and advances `sequence_next` to
its successor (u32 arithmetic); consequently the `n`-th send from a fresh
socket (counting from zero, for any per-send flag words) carries sequence
number `n + 1` while that value fits in a `u32`, so successive sends
carry 1, 2, 3, and so on. -/
theorem socket_sequence_counter_invariant (fs : Nat → Nat) (n : Nat)
    (hn : n + 1 < 4294967296) :
    SocketState.new.sequence_next = 1 ∧
    (∀ s flags,
      (SocketState.sendMessage s flags).2 = s.sequence_next ∧
      (SocketState.sendMessage s flags).1.sequence_expected =
        (SocketState.sendMessage s flags).2 ∧
      (SocketState.sendMessage s flags).1.sequence_next =
        ((SocketState.sendMessage s flags).2 + 1) % 4294967296) ∧
    sentSequence fs n = n + 1 := by
  refine ⟨rfl, fun s flags => ⟨rfl, rfl, rfl⟩, ?_⟩
  simp [sentSequence, SocketState.sendMessage, socketAfterSends_sequence_next,
    Nat.mod_eq_of_lt hn]

/-- C10 witness: the third send on a fresh socket (two sends already
performed) carries sequence number 3. -/
theorem socket_sequence_counter_invariant_witness :
    sentSequence (fun _ => 0) 2 = 3 :=
  (socket_sequence_counter_invariant (fun _ => 0) 2 (by norm_num)).2.2

theorem DataMessage.parse_header_eq (buf : List Nat) (pos : Nat) (h hd : Header)
    (payload : List Nat) (p : Nat)
    (hp : DataMessage.parse buf pos h = .ok ((hd, payload), p)) : hd = h := by
  simp only [DataMessage.parse] at hp
  split at hp
  · exact absurd hp (by simp)
  · split at hp
    · exact absurd hp (by simp)
    · exact absurd hp (by simp)
    · exact absurd hp (by simp)
    · simp only [PResult.ok.injEq, Prod.mk.injEq] at hp
      exact hp.1.1.symm

theorem parseDataLoop_more_characterisation (sp se : Nat) (ack : Bool) (buf : List Nat) :
    ∀ fuel pos msgs more msgs' more',
      parseDataLoop sp se ack buf fuel pos msgs more = .ok (msgs', more') →
      more = msgs.any (continuationMark ack) →
      more' = msgs'.any (continuationMark ack) := by
  intro fuel
  induction fuel with
  | zero =>
    intro pos msgs more msgs' more' h _
    exact absurd h (by simp [parseDataLoop])
  | succ n ih =>
    intro pos msgs more msgs' more' h hinv
    simp only [parseDataLoop] at h
    split at h
    · split at h
      · exact absurd h (by simp)
      · exact absurd h (by simp)
      · exact absurd h (by simp)
      · split at h
        · exact absurd h (by simp)
        · split at h
          · exact absurd h (by simp)
          · split at h
            · exact ih _ _ _ _ _ h hinv
            · split at h
              · split at h
                · exact absurd h (by simp)
                · exact absurd h (by simp)
                · exact absurd h (by simp)
                · split at h
                  · exact absurd h (by simp)
                  · refine ih _ _ _ _ _ h ?_
                    simp [continuationMark, hinv]
              · split at h
                · refine ih _ _ _ _ _ h ?_
                  simp [continuationMark, hinv]
                · split at h
                  · exact absurd h (by simp)
                  · exact absurd h (by simp)
                  · exact absurd h (by simp)
                  · next hdr rpos heqh _ _ _ _ hd payload x heq =>
                    have hhd := DataMessage.parse_header_eq _ _ _ _ _ _ heq
                    subst hhd
                    refine ih _ _ _ _ _ h ?_
                    simp [continuationMark, hinv]
    · simp only [PResult.ok.injEq, Prod.mk.injEq] at h
      obtain ⟨rfl, rfl⟩ := h
      exact hinv

/-- C8 counterexample: the claim says the MULTIPART bit signals
continuation regardless of any other, possibly unknown, flag bits in the
header.  On a single `Data` message whose header flags are `0x8002`
(MULTIPART plus the unknown bit 0x8000) and with the acknowledge-expected
flag clear, `parse_data` reports no continuation, because
`MessageFlags::from_bits` returns `None` for unknown bits and the source
substitutes the empty flag set. -/
theorem parse_data_unknown_flag_bits_drop_multipart :
    0x8002 &&& NLM_F_MULTI = NLM_F_MULTI ∧
    parseData 0 0 false [16, 0, 0, 0, 16, 0, 0x02, 0x80, 0, 0, 0, 0, 0, 0, 0, 0] =
      .ok ([.data ⟨16, 16, 0x8002, 0, 0⟩ []], false) := by
  decide

/-- C8 (amended): when `parse_data` returns successfully it reports that
more messages may follow exactly when some parsed `Data` message either
has header flags that contain the MULTIPART bit and no bits outside the
known flag set (REQUEST, MULTIPART, ACKNOWLEDGE, DUMP — a header with
unknown flag bits is treated as having no flags at all), or was parsed
while the socket's acknowledge-expected flag was set. -/
theorem parse_data_more_messages_characterisation (sp se : Nat) (ack : Bool)
    (buf : List Nat) (msgs : List Message) (more : Bool)
    (h : parseData sp se ack buf = .ok (msgs, more)) :
    more = msgs.any (continuationMark ack) :=
  parseDataLoop_more_characterisation sp se ack buf _ _ _ _ _ _ h rfl

/-- C8 witness: the characterisation applied to a concrete single-message
batch whose `Data` header carries exactly the MULTIPART flag: the reported
continuation bit (true) coincides with the continuation mark of the
parsed message list. -/
theorem parse_data_more_messages_characterisation_witness :
    (true : Bool) =
      [Message.data ⟨16, 16, 2, 0, 0⟩ []].any (continuationMark false) :=
  parse_data_more_messages_characterisation 0 0 false
    [16, 0, 0, 0, 16, 0, 2, 0, 0, 0, 0, 0, 0, 0, 0, 0]
    [Message.data ⟨16, 16, 2, 0, 0⟩ []] true (by decide)

/-- C9: while iterating a received batch, a parsed header with a pid that
is neither 0 nor the socket pid makes `parse_data` fail with the
"Invalid PID" data-integrity error; a header with nonzero pid whose
sequence differs from the expected one makes it fail with one of the two
data-integrity errors ("Invalid PID" when the pid also fails its check,
"Invalid Sequence" otherwise); and a header with pid 0 is exempt from
both checks, the loop advancing by exactly the header's aligned length
(shown on a NOOP message, whose handling does nothing else). -/
theorem parse_data_header_validation (sp se : Nat) (ack : Bool) (buf : List Nat)
    (fuel pos : Nat) (msgs : List Message) (more : Bool) (h : Header) (rpos : Nat)
    (hpos : pos < buf.length) (hparse : Header.parse buf pos = .ok (h, rpos)) :
    (h.pid ≠ 0 → h.pid ≠ sp →
      parseDataLoop sp se ack buf (fuel + 1) pos msgs more = .err .invalidPid) ∧
    (h.pid ≠ 0 → h.sequence ≠ se →
      (parseDataLoop sp se ack buf (fuel + 1) pos msgs more = .err .invalidPid ∨
       parseDataLoop sp se ack buf (fuel + 1) pos msgs more = .err .invalidSequence)) ∧
    (h.pid = 0 → h.identifier = NLMSG_NOOP →
      parseDataLoop sp se ack buf (fuel + 1) pos msgs more =
        parseDataLoop sp se ack buf fuel (pos + netlinkAlign h.length) msgs more) := by
  refine ⟨?_, ?_, ?_⟩
  · intro hpid0 hpidsp
    have hcp : h.checkPid sp = false := by
      simp [Header.checkPid, hpid0, hpidsp]
    simp [parseDataLoop, hpos, hparse, hcp]
  · intro hpid0 hseq
    by_cases hcp : h.checkPid sp
    · right
      have hcs : h.checkSequence se = false := by
        simp [Header.checkSequence, hpid0, hseq]
      simp [parseDataLoop, hpos, hparse, hcp, hcs]
    · left
      simp [parseDataLoop, hpos, hparse, hcp]
  · intro hpid0 hid
    have hcp : h.checkPid sp = true := by simp [Header.checkPid, hpid0]
    have hcs : h.checkSequence se = true := by simp [Header.checkSequence, hpid0]
    simp [parseDataLoop, hpos, hparse, hcp, hcs, hid, Header.alignedLength]

/-- C7: a received batch consisting of one NLMSG_ERROR message (header
type 2, pid 0, total length 36 = 16-byte header + 4-byte code + 16-byte
embedded original header) yields an `Acknowledge` message when the i32
code read from the payload bytes is 0 and otherwise fails the receive
with the OS error numbered by the negation of the code; in particular the
all-ones code bytes decode to -1 and surface as OS error 1, which is
EPERM on Linux. -/
theorem parse_data_error_message_code (sp se : Nat) (ack : Bool) (b0 b1 b2 b3 : Nat) :
    parseData sp se ack
        [36, 0, 0, 0, 2, 0, 0, 0, 0, 0, 0, 0, 0, 0, 0, 0,
         b0, b1, b2, b3, 0, 0, 0, 0, 0, 0, 0, 0, 0, 0, 0, 0, 0, 0, 0, 0] =
      (if toI32 (leVal [b0, b1, b2, b3]) = 0 then .ok ([.acknowledge], false)
       else .err (.osError (-toI32 (leVal [b0, b1, b2, b3])))) ∧
    -toI32 (leVal [255, 255, 255, 255]) = 1 := by
  have h36 : leVal [36, 0, 0, 0] = 36 := by simp [leVal]
  have h2 : leVal [2, 0] = 2 := by simp [leVal]
  have hz2 : leVal [0, 0] = 0 := by simp [leVal]
  have hz4 : leVal [0, 0, 0, 0] = 0 := by simp [leVal]
  refine ⟨?_, by decide⟩
  by_cases h0 : toI32 (leVal [b0, b1, b2, b3]) = 0 <;>
    simp [parseData, parseDataLoop, Header.parse, ErrorMessage.parse, readU32,
      readU16, readI32, readExact, Header.checkPid, Header.checkSequence,
      Header.alignedLength, netlinkAlign, NLMSG_NOOP, NLMSG_ERROR, NLMSG_DONE,
      h36, h2, hz2, hz4, h0]

/-- C9 witness: the header validation applied at concrete batches — a
header with pid 7 on a socket bound to pid 5 fails with the Invalid-PID
error, and a pid-0 NOOP header whose sequence 99 differs from the
expected sequence 9 passes both checks, the loop stepping to position
`0 + aligned_length(16) = 16`. -/
theorem parse_data_header_validation_witness :
    parseDataLoop 5 9 false
        [16, 0, 0, 0, 4, 0, 0, 0, 0, 0, 0, 0, 7, 0, 0, 0] 1 0 [] false =
      .err .invalidPid ∧
    parseDataLoop 5 9 false
        [16, 0, 0, 0, 1, 0, 0, 0, 99, 0, 0, 0, 0, 0, 0, 0] 1 0 [] false =
      parseDataLoop 5 9 false
        [16, 0, 0, 0, 1, 0, 0, 0, 99, 0, 0, 0, 0, 0, 0, 0] 0 16 [] false := by
  constructor
  · exact (parse_data_header_validation 5 9 false _ 0 0 [] false
      ⟨16, 4, 0, 0, 7⟩ 16 (by decide) (by decide)).1 (by decide) (by decide)
  · have h := (parse_data_header_validation 5 9 false
      [16, 0, 0, 0, 1, 0, 0, 0, 99, 0, 0, 0, 0, 0, 0, 0] 0 0 [] false
      ⟨16, 1, 0, 99, 0⟩ 16 (by decide) (by decide)).2.2 rfl rfl
    norm_num [netlinkAlign] at h
    exact h
